import Mathlib

/-!
Verification of the Assessment-Writer pipeline (`src/streamlit_app.py`).

The Python program is shallowly embedded: pure helpers become Lean
functions on `String`/`List Char`, the PDF filesystem and the completion
gateway become explicit parameters, and the module-level Streamlit script
and its button handler become functions producing lists of observable
events.  Line numbers in doc comments refer to `src/streamlit_app.py`.
-/

/- ===== Embedding of the functional core ===== -/

/-- Whitespace characters removed by Python `str.strip()` (ASCII range). -/
def isPySpace (c : Char) : Bool :=
  c = ' ' || c = '\t' || c = '\n' || c = '\r' || c = '\x0b' || c = '\x0c'

/-- Models Python `str.strip()`: drop leading and trailing whitespace. -/
def pyStrip (l : List Char) : List Char :=
  ((l.dropWhile isPySpace).reverse.dropWhile isPySpace).reverse

/-- Models the single non-overlapping left-to-right pass of
`text.replace(chr(10)+chr(10), chr(10))` performed at line 40: each
occurrence of two consecutive newlines is replaced by one newline and the
scan resumes after the replacement. -/
def collapseDoubleNewline : List Char → List Char
  | [] => []
  | [c] => [c]
  | c :: d :: rest =>
    if c = '\n' ∧ d = '\n' then '\n' :: collapseDoubleNewline rest
    else c :: collapseDoubleNewline (d :: rest)

/-- Embeds `clean_extracted_text` (lines 36-42): falsy (empty) input yields
the empty string, otherwise one replacement pass over doubled newlines
followed by `strip()`. -/
def clean_extracted_text (text : String) : String :=
  if text = "" then ""
  else String.mk (pyStrip (collapseDoubleNewline text.data))

/-- Environment visible to `extract_pdf_content`: whether a PDF reader class
was importable (lines 17-30), which paths exist on disk, and what a read of
a path yields.  `readPages path = none` models an exception raised while
opening or parsing the file; `some pages` gives each page's
`extract_text()` result, with `none` for a page yielding no text. -/
structure PdfEnv where
  readerAvailable : Bool
  fileExists : String → Bool
  readPages : String → Option (List (Option String))

/-- Embeds `extract_pdf_content` (lines 44-66): `none` when the backend is
unavailable, the file is missing, or an exception occurs; otherwise the
truthy page texts are joined with single spaces and cleaned.  The function
is total: no failure escapes to the caller. -/
def extract_pdf_content (env : PdfEnv) (pdf_path : String) : Option String :=
  if !env.readerAvailable then none
  else if !env.fileExists pdf_path then none
  else
    match env.readPages pdf_path with
    | none => none
    | some pages =>
        some (clean_extracted_text (String.intercalate " "
          (pages.filterMap (fun p =>
            match p with
            | none => none
            | some t => if t = "" then none else some t))))

/-- Embeds the `grade_mapping` dict literal of lines 70-83. -/
def grade_mapping : List (String × String) :=
  [("Kindergarten", "grade_3.pdf"),
   ("Grade 1", "grade_3.pdf"),
   ("Grade 2", "grade_3.pdf"),
   ("Grade 3", "grade_3.pdf"),
   ("Grade 4", "grade_4.pdf"),
   ("Grade 5", "grade_5.pdf"),
   ("Grade 6", "grade_6.pdf"),
   ("Grade 7", "grade_7.pdf"),
   ("Grade 8", "grade_8.pdf"),
   ("Algebra 1", "algebra_1.pdf"),
   ("Algebra 2", "algebra_1.pdf"),
   ("Geometry", "algebra_1.pdf")]

/-- Embeds `get_reference_file` (lines 68-84): `dict.get`, returning `none`
for a key outside the table. -/
def get_reference_file (grade : String) : Option String :=
  grade_mapping.lookup grade

/-- The literal delimiter `Question` on which `format_response` splits the
completion text (line 88). -/
def qdelim : List Char := ['Q', 'u', 'e', 's', 't', 'i', 'o', 'n']

/-- Worker modelling Python `text.split` on the `Question` delimiter: the
text is scanned left to right and the fragment accumulated so far is
emitted at each non-overlapping occurrence of the delimiter. -/
def questionSplitAux (acc : List Char) (l : List Char) : List (List Char) :=
  match l with
  | [] => [acc.reverse]
  | c :: cs =>
    if qdelim.isPrefixOf (c :: cs) then
      acc.reverse :: questionSplitAux [] (List.drop 8 (c :: cs))
    else questionSplitAux (c :: acc) cs
termination_by l.length
decreasing_by
  · simp [List.length_drop]
    omega
  · simp

/-- All fragments of `text.split` on the delimiter (line 88); fragment zero
is the text before the first occurrence. -/
def questionSplit (l : List Char) : List (List Char) := questionSplitAux [] l

/-- Models `q.replace(chr(10), ...)` of line 99: every newline becomes the
four characters of the `br` tag. -/
def brReplace : List Char → List Char
  | [] => []
  | c :: rest =>
    if c = '\n' then '<' :: 'b' :: 'r' :: '>' :: brReplace rest
    else c :: brReplace rest

/-- Literal html text of lines 91-99 preceding the reconstituted token. -/
def divOpen : String := "\n        <div style=\"\n            background-color: #f8f9fa;\n            padding: 20px;\n            margin: 20px 0;\n            border-radius: 5px;\n            border-left: 4px solid #1f77b4;\n        \">\n            "

/-- Literal html text of lines 99-101 following the fragment. -/
def divClose : String := "\n        </div>\n        "

/-- One formatted block (`formatted_q`, lines 91-101): the html wrapper
around the reconstituted token `Question` followed by the fragment with
newlines rewritten to break tags. -/
def wrapBlock (q : List Char) : List Char :=
  divOpen.data ++ (qdelim ++ brReplace q) ++ divClose.data

/-- The `formatted_questions` list of `format_response` (lines 88-102): the
fragments after the first delimiter occurrence, in source order, each
wrapped in presentation markup. -/
def question_blocks (text : String) : List String :=
  ((questionSplit text.data).drop 1).map (fun q => String.mk (wrapBlock q))

/-- Embeds `format_response` (lines 86-103): the concatenation of the
wrapped blocks. -/
def format_response (text : String) : String :=
  String.join (question_blocks text)

/-- Embeds the prompt f-string of `get_response` (lines 117-196) as the
concatenation of its literal segments and interpolated variables, in
source order.  Adjacent literal text is split into several list entries at
a few substring boundaries; the concatenation is unchanged. -/
def user_content (grade narrative goals standards lessons reference_text : String) : String :=
  String.join [
    "\n    # CONTEXT #\n    You are creating a set of mathematics assessment items for ",
    grade,
    ".\n\n    # Content Hierarchy (in order of priority):\n    1. Narrative and Lesson Goals\n    2. Goals\n    3. Standards\n\n    # Preliminary Steps:\n    1. Review the Narrative, Lesson Goals, Goals, and Standards.\n    2. Write a summary of how the Narrative and Lesson Goals drive the section’s key ideas\n       and how they connect to the Goals and Standards. \n    3. From the Narrative and Lesson Goals, write a list of skills needed. \n       - Show how each skill helps learners meet the Goals and Standards.\n\n    # Question Creation Guidelines:\n    - Generate exactly 10 questions:\n      - ",
    "5 Multiple Choice (MCQ) questions.",
    "\n      - ",
    "5 Short Answer questions.",
    "\n    - Ensure each question is solvable with the information provided.\n    - Each question must reflect the Narrative and Lesson Goals first, then align with the Goals, and finally comply with the Standards.\n\n    ## Multiple Choice Questions\n    - ",
    "Provide four answer options labeled A, B, C, D.",
    "\n    - ",
    "Each option should appear on its own line.",
    "\n    \n    ## Short Answer Questions\n    - Require a clear step-by-step solution leading to a concise final answer.\n    \n    ## Visual Descriptions (if needed)\n    - Place all visual descriptions in square brackets: [Visual: ...].\n    - Include enough detail (coordinates, measures, etc.) so the problem is solvable.\n    - Verify geometric or diagram-based details for mathematical consistency (e.g., parallel lines, angle sums, correct coordinates).\n    \n    # Formatting Requirements:\n    1. Number each question as \"Question 1:\", \"Question 2:\", etc.\n    2. Do your best to identify which of the submitted standards best aligns with the question and add this after the question number. Example, \"Question 1: 8.8D\"\n    3. Use the following answer format for both MCQ and Short Answer:\n       ",
    "Answer: [Letter or numeric value] | Model Solution:",
    "\n       • Step-by-step explanation\n       • Final answer statement\n    4. Do not include any meta-commentary or extra text beyond the 10 questions and their solutions.\n    \n    # Validation Checklist:\n    1. Is the question solvable with the provided info?\n    2. Does it reflect the Narrative and Lesson Goals first, then the Goals, then the Standards?\n    3. Are visual or geometric details valid (correct angle sums, labeled measurements, etc.)?\n    4. Is any diagram or measurement consistent and clearly labeled?\n    5. Is there no missing or extraneous information?\n\n    # REFERENCE FORMAT #\n    Here are actual questions from the official ",
    grade,
    " assessment for content reference:\n\n    ",
    reference_text,
    "\n\n    # CONTENT TO ADDRESS #\n    Generate questions covering:\n    ",
    "***Learning Goals: ",
    goals,
    "\n    ",
    "***Standards: ",
    standards,
    "\n    ",
    "***Lesson Content: ",
    lessons,
    "\n    ",
    "***Section Narrative: ",
    narrative,
    "\n\n    Important: Generate all 10 questions at once. Do not include any introductory text, meta-commentary, or questions about continuing.\n         \n    3. Example Question Format for Multiple Choice:\n       Question 1: 8.8D\n       [Visual Description: Coordinate grid showing triangle ABC with vertices at (2,3), (4,8), and (6,2)]\n       Triangle ABC has angle measures of 65° and 45°. What is the measure of the third angle?\n       A) 60°\n       B) 70°\n       C) 85°\n       D) 180°\n       Answer: B | Model Solution:\n       • Sum of angles in a triangle = 180°\n       • Known angles: 65° + 45° = 110°\n       • 180° - 110° = 70°\n       Therefore, the third angle measures 70°\n\n    "
  ]

/-- The fixed system instruction of the completion call (line 200). -/
def system_instruction : String :=
  "You are a mathematics assessment writer who exactly replicates official state assessment style and format."

/-- The completion gateway as an injected capability: api key, system
instruction and user prompt to either the completion text or the message of
a raised exception. -/
abbrev Gateway : Type := Option String → String → String → Except String String

/-- The reference-loading preamble of `get_response` (lines 109-114):
resolve the grade, read the PDF under `reference_materials/`, and coerce a
falsy result to the empty string (`or` of line 114; the `if` of line 112
tests Python truthiness of the resolved name). -/
def load_reference_text (env : PdfEnv) (grade : String) : String :=
  match get_reference_file grade with
  | some f =>
      if f = "" then ""
      else (extract_pdf_content env ("reference_materials/" ++ f)).getD ""
  | none => ""

/-- Embeds `get_response` (lines 105-208): compose the prompt from the five
request fields plus the loaded reference text and submit it with the fixed
system instruction through the gateway. -/
def get_response (gw : Gateway) (env : PdfEnv) (api_key : Option String)
    (grade narrative goals standards lessons : String) : Except String String :=
  gw api_key system_instruction
    (user_content grade narrative goals standards lessons (load_reference_text env grade))

/-- The grade options offered by the selectbox (lines 219-221). -/
def grade_labels : List String :=
  ["Kindergarten"] ++ (List.range 8).map (fun i => "Grade " ++ toString (i + 1)) ++
    ["Algebra 1", "Algebra 2", "Geometry"]

/-- The markdown help text rendered at lines 213-216. -/
def help_markdown : String := "\nFor samples and more information on how to collect the data for this tool, \ncheck out this [Help Page](https://docs.google.com/document/d/1S9gjx4meZiUfDb-b_W1Ca2yKjYirsjpZKpmbUJ5lMmw/edit?tab=t.0#heading=h.pjv2hotkik9a).\n"

/-- Observable module-level UI events.  `fatalConfigNotice` and `halt` are
the behaviours the specification predicts for a missing credential; the
script can be checked for (not) emitting them. -/
inductive StartupEvent where
  | errorNotice (msg : String)
  | title (msg : String)
  | subheader (msg : String)
  | markdown (msg : String)
  | selectbox (label : String) (options : List String)
  | textArea (label : String)
  | buttonHandlerRegistered
  | fatalConfigNotice (msg : String)
  | halt
deriving DecidableEq

/-- Embeds the module-level script: the import-time error notice of lines
21-30 and the unconditional UI declarations of lines 210-240.  No statement
between the credential lookup (line 34) and the button handler inspects
`api_key`, so the emitted events do not depend on it and contain neither a
configuration notice nor a halt. -/
def startup_events (pdf_reader_available : Bool) (_api_key : Option String) : List StartupEvent :=
  (if pdf_reader_available then []
   else [.errorNotice "PDF processing libraries not available. Please contact support."]) ++
  [.title "Mathematics Assessment Generator",
   .subheader "Generate structured assessment items with rationales",
   .markdown help_markdown,
   .selectbox "Grade Level:" grade_labels,
   .textArea "Standards:",
   .textArea "Lesson Learning Goals:",
   .textArea "Section Narrative and Learning Goals:",
   .buttonHandlerRegistered]

/-- Observable events of the button handler (lines 240-261). -/
inductive HandlerEvent where
  | success (msg : String)
  | renderedBlocks (html : String)
  | rawText (body : String)
  | errorNotice (msg : String)
  | warningNotice (msg : String)
deriving DecidableEq

/-- Embeds the `Generate Assessment` button handler (lines 240-261): when
the four fields are truthy (the `all` of line 241) it calls
`get_response(grade, section_content, lessons, standards, lessons)` (line
244) and renders the outcome, catching any exception as an error notice;
otherwise it warns. -/
def handle_generate (gw : Gateway) (env : PdfEnv) (api_key : Option String)
    (grade standards lessons section_content : String) : List HandlerEvent :=
  if grade ≠ "" ∧ standards ≠ "" ∧ lessons ≠ "" ∧ section_content ≠ "" then
    match get_response gw env api_key grade section_content lessons standards lessons with
    | .ok response_text =>
        [.success "Assessment Generated Successfully!",
         .renderedBlocks (format_response response_text),
         .rawText response_text]
    | .error e => [.errorNotice ("An error occurred: " ++ e)]
  else [.warningNotice "Please fill in all fields to generate the assessment."]

/-- The prompt composed when the handler triggers a generation (line 244):
`section_content` flows into the narrative slot and `lessons` into both the
goals and the lessons slot. -/
def trigger_prompt (env : PdfEnv) (grade standards lessons section_content : String) : String :=
  user_content grade section_content lessons standards lessons (load_reference_text env grade)

/- ===== Decidable observations used in claim statements ===== -/

/-- The string contains two consecutive newline characters. -/
def hasDoubleNewline (s : String) : Bool := decide (['\n', '\n'] <:+: s.data)

/-- The string contains three consecutive newline characters. -/
def hasTripleNewline (s : String) : Bool := decide (['\n', '\n', '\n'] <:+: s.data)

/-- Neither end of the string is Python whitespace. -/
def strippedBool (s : String) : Bool :=
  (match s.data.head? with
   | none => true
   | some c => !isPySpace c) &&
  (match s.data.getLast? with
   | none => true
   | some c => !isPySpace c)

/-- The string contains the delimiter token `Question`. -/
def containsQuestionToken (s : String) : Bool := decide (qdelim <:+: s.data)

/-- The startup event is one of the behaviours the specification predicts
for a missing credential. -/
def isFatalOrHalt : StartupEvent → Bool
  | .fatalConfigNotice _ => true
  | .halt => true
  | _ => false

/-- The startup event creates an input widget. -/
def isInputWidget : StartupEvent → Bool
  | .selectbox _ _ => true
  | .textArea _ => true
  | _ => false

/- ===== Library glue lemmas ===== -/

theorem join_cons : ∀ (x : String) (xs : List String), String.join (x :: xs) = x ++ String.join xs := by
  intro ⟨d⟩ xs
  rw [String.join_eq, String.join_eq]
  rfl

theorem strAppend_assoc : ∀ (a b c : String), (a ++ b) ++ c = a ++ (b ++ c) := by
  intro ⟨a⟩ ⟨b⟩ ⟨c⟩
  apply String.ext
  simp [String.data_append]

theorem empty_append (s : String) : "" ++ s = s := by
  obtain ⟨d⟩ := s
  rfl

theorem join_append : ∀ (xs ys : List String), String.join (xs ++ ys) = String.join xs ++ String.join ys := by
  intro xs ys
  induction xs with
  | nil => rw [List.nil_append]; exact (empty_append _).symm
  | cons x xs ih => rw [List.cons_append, join_cons, join_cons, ih, strAppend_assoc]

theorem join_singleton (s : String) : String.join [s] = s := by
  rw [join_cons]
  obtain ⟨d⟩ := s
  apply String.ext
  simp [String.data_append]

theorem join_pair (a b : String) : String.join [a, b] = a ++ b := by
  rw [join_cons, join_singleton]

theorem join_data_infix_of_list_infix {M L : List String} (h : M <:+: L) :
    (String.join M).data <:+: (String.join L).data := by
  obtain ⟨l₁, l₂, rfl⟩ := h
  rw [join_append, join_append, String.data_append, String.data_append]
  exact List.infix_append _ _ _

theorem join_contains {L : List String} (m : String) (h : [m] <:+: L) :
    m.data <:+: (String.join L).data := by
  have hm := join_data_infix_of_list_infix h
  rwa [join_singleton] at hm

theorem join_contains₂ {L : List String} (a b : String) (h : [a, b] <:+: L) :
    (a ++ b).data <:+: (String.join L).data := by
  have hm := join_data_infix_of_list_infix h
  rwa [join_pair] at hm

theorem list_infix_here₁ {α : Type} (a : α) (rest : List α) : [a] <:+: a :: rest :=
  ⟨[], rest, rfl⟩

theorem list_infix_pair {α : Type} (a b : α) (rest : List α) : [a, b] <:+: a :: b :: rest :=
  ⟨[], rest, rfl⟩

theorem list_infix_step {α : Type} (a : α) {l₁ l₂ : List α} (h : l₁ <:+: l₂) :
    l₁ <:+: a :: l₂ :=
  h.trans (List.suffix_cons a l₂).isInfix

theorem isPrefixOf_iff {l₁ l₂ : List Char} : l₁.isPrefixOf l₂ = true ↔ l₁ <+: l₂ :=
  List.isPrefixOf_iff_prefix

theorem singleton_prefix_head {a : Char} {z : List Char} (h : [a] <+: z) :
    z.head? = some a := by
  obtain ⟨t, rfl⟩ := h
  rfl

theorem prefix_head_eq {l₁ l₂ : List Char} (h : l₁ <+: l₂) (hne : l₁ ≠ []) :
    l₁.head? = l₂.head? := by
  obtain ⟨t, rfl⟩ := h
  cases l₁ with
  | nil => exact absurd rfl hne
  | cons c cs => rfl

theorem prefix_cut_left {p x y : List Char} (h : p <+: x ++ y) (hl : p.length ≤ x.length) :
    p <+: x := by
  rw [List.prefix_iff_eq_take] at h ⊢
  rwa [List.take_append_of_le_length hl] at h

theorem append_prefix_cut {p x y : List Char} (h : p <+: x ++ y) (hl : x.length ≤ p.length) :
    x <+: p := by
  have h1 : p = (x ++ y).take p.length := List.prefix_iff_eq_take.mp h
  rw [List.prefix_iff_eq_take]
  rw [h1, List.take_take, Nat.min_eq_left hl, List.take_append_of_le_length (le_refl x.length),
    List.take_length]

/- ===== Claim C1 ===== -/

/-- C1: for every grade, narrative, goals, standards, lessons and reference
text — the all-empty request included — the composed prompt contains the
literal substrings mandating 5 multiple-choice questions, 5 short-answer
questions, the four-option A-D one-per-line grammar, and the fixed
answer-block grammar token. -/
theorem C1_prompt_mandatory_literals
    (grade narrative goals standards lessons reference_text : String) :
    ("5 Multiple Choice (MCQ) questions." : String).data <:+:
      (user_content grade narrative goals standards lessons reference_text).data ∧
    ("5 Short Answer questions." : String).data <:+:
      (user_content grade narrative goals standards lessons reference_text).data ∧
    ("Provide four answer options labeled A, B, C, D." : String).data <:+:
      (user_content grade narrative goals standards lessons reference_text).data ∧
    ("Each option should appear on its own line." : String).data <:+:
      (user_content grade narrative goals standards lessons reference_text).data ∧
    ("Answer: [Letter or numeric value] | Model Solution:" : String).data <:+:
      (user_content grade narrative goals standards lessons reference_text).data := by
  unfold user_content
  refine ⟨?_, ?_, ?_, ?_, ?_⟩ <;>
    · apply join_contains
      repeat
        first
        | exact list_infix_here₁ _ _
        | apply list_infix_step

/- ===== Claim C2 ===== -/

/-- C2: prompt composition is a pure, deterministic function of the six
inputs: two invocations on identical inputs produce identical text. -/
theorem C2_compose_deterministic
    (g₁ n₁ go₁ st₁ le₁ r₁ g₂ n₂ go₂ st₂ le₂ r₂ : String)
    (hg : g₁ = g₂) (hn : n₁ = n₂) (hgo : go₁ = go₂)
    (hst : st₁ = st₂) (hle : le₁ = le₂) (hr : r₁ = r₂) :
    user_content g₁ n₁ go₁ st₁ le₁ r₁ = user_content g₂ n₂ go₂ st₂ le₂ r₂ := by
  rw [hg, hn, hgo, hst, hle, hr]

/-- Witness for C2 at a concrete request. -/
theorem C2_witness :
    user_content "Grade 4" "narrative" "goals" "standards" "lessons" "" =
      user_content "Grade 4" "narrative" "goals" "standards" "lessons" "" :=
  C2_compose_deterministic "Grade 4" "narrative" "goals" "standards" "lessons" ""
    "Grade 4" "narrative" "goals" "standards" "lessons" "" rfl rfl rfl rfl rfl rfl

/- ===== Claim C3 ===== -/

/-- C3: the resolver returns the fixed identifier for every label of the
closed set, `none` for any label outside it (never failing), and
Kindergarten, Grade 1 and Grade 2 resolve to the identifier of Grade 3. -/
theorem C3_reference_resolver :
    (∀ g : String, g ∉ grade_labels → get_reference_file g = none) ∧
    get_reference_file "Kindergarten" = some "grade_3.pdf" ∧
    get_reference_file "Grade 1" = some "grade_3.pdf" ∧
    get_reference_file "Grade 2" = some "grade_3.pdf" ∧
    get_reference_file "Grade 3" = some "grade_3.pdf" ∧
    get_reference_file "Grade 4" = some "grade_4.pdf" ∧
    get_reference_file "Grade 5" = some "grade_5.pdf" ∧
    get_reference_file "Grade 6" = some "grade_6.pdf" ∧
    get_reference_file "Grade 7" = some "grade_7.pdf" ∧
    get_reference_file "Grade 8" = some "grade_8.pdf" ∧
    get_reference_file "Algebra 1" = some "algebra_1.pdf" ∧
    get_reference_file "Algebra 2" = some "algebra_1.pdf" ∧
    get_reference_file "Geometry" = some "algebra_1.pdf" ∧
    get_reference_file "Kindergarten" = get_reference_file "Grade 3" ∧
    get_reference_file "Grade 1" = get_reference_file "Grade 3" ∧
    get_reference_file "Grade 2" = get_reference_file "Grade 3" := by
  refine ⟨?_, by decide, by decide, by decide, by decide, by decide, by decide, by decide,
    by decide, by decide, by decide, by decide, by decide, by decide, by decide, by decide⟩
  intro g hg
  have hl : grade_labels =
      ["Kindergarten", "Grade 1", "Grade 2", "Grade 3", "Grade 4", "Grade 5", "Grade 6",
       "Grade 7", "Grade 8", "Algebra 1", "Algebra 2", "Geometry"] := by decide
  rw [hl] at hg
  simp only [List.mem_cons, List.not_mem_nil, or_false, not_or] at hg
  obtain ⟨h1, h2, h3, h4, h5, h6, h7, h8, h9, h10, h11, h12⟩ := hg
  simp [get_reference_file, grade_mapping, List.lookup, beq_eq_false_iff_ne.mpr h1,
    beq_eq_false_iff_ne.mpr h2, beq_eq_false_iff_ne.mpr h3, beq_eq_false_iff_ne.mpr h4,
    beq_eq_false_iff_ne.mpr h5, beq_eq_false_iff_ne.mpr h6, beq_eq_false_iff_ne.mpr h7,
    beq_eq_false_iff_ne.mpr h8, beq_eq_false_iff_ne.mpr h9, beq_eq_false_iff_ne.mpr h10,
    beq_eq_false_iff_ne.mpr h11, beq_eq_false_iff_ne.mpr h12]

/-- Witness for C3: a label outside the closed set resolves to `none`. -/
theorem C3_witness : get_reference_file "Grade 9" = none :=
  C3_reference_resolver.1 "Grade 9" (by decide)

/- ===== Claim C4 ===== -/

/-- C4 counterexample: with the extraction backend unavailable the extractor
returns `none` at a concrete document path, not the empty string. -/
theorem C4_counterexample :
    extract_pdf_content ⟨false, fun _ => false, fun _ => none⟩
        "reference_materials/grade_3.pdf" = none ∧
    (none : Option String) ≠ some "" := by
  exact ⟨rfl, by decide⟩

/-- C4 amended: on a missing file, an unreadable file, or an unavailable
backend the extractor returns the absent marker `none` without raising, and
the caller-side coercion of line 114 turns that into the empty reference
text. -/
theorem C4_extract_failure_amended (env : PdfEnv) (path : String)
    (h : env.readerAvailable = false ∨ env.fileExists path = false ∨
      env.readPages path = none) :
    extract_pdf_content env path = none ∧
    (extract_pdf_content env path).getD "" = "" := by
  have hnone : extract_pdf_content env path = none := by
    rcases h with h | h | h
    · simp [extract_pdf_content, h]
    · cases hr : env.readerAvailable <;> simp [extract_pdf_content, h, hr]
    · cases hr : env.readerAvailable <;> cases hf : env.fileExists path <;>
        simp [extract_pdf_content, h, hr, hf]
  exact ⟨hnone, by rw [hnone]; rfl⟩

/-- Witness for C4 at a concrete environment with a missing file. -/
theorem C4_witness :
    extract_pdf_content ⟨true, fun _ => false, fun _ => none⟩
        "reference_materials/grade_4.pdf" = none ∧
    (extract_pdf_content ⟨true, fun _ => false, fun _ => none⟩
        "reference_materials/grade_4.pdf").getD "" = "" :=
  C4_extract_failure_amended _ _ (Or.inr (Or.inl rfl))

/- ===== Claim C10 ===== -/

/-- C10: every triggered generation passes the lessons text as both the
goals argument and the lessons argument of the composer, so the Learning
Goals section and the Lesson Content section of the resulting prompt carry
identical text. -/
theorem C10_goals_lessons_wiring (env : PdfEnv)
    (grade standards lessons section_content : String) :
    trigger_prompt env grade standards lessons section_content =
      user_content grade section_content lessons standards lessons
        (load_reference_text env grade) ∧
    ("***Learning Goals: " ++ lessons).data <:+:
      (trigger_prompt env grade standards lessons section_content).data ∧
    ("***Lesson Content: " ++ lessons).data <:+:
      (trigger_prompt env grade standards lessons section_content).data := by
  unfold trigger_prompt user_content
  refine ⟨rfl, ?_, ?_⟩ <;>
    · apply join_contains₂
      repeat
        first
        | exact list_infix_pair _ _ _
        | apply list_infix_step

/- ===== Segmentation lemmas ===== -/

theorem qsa_nil (acc : List Char) : questionSplitAux acc [] = [acc.reverse] := by
  rw [questionSplitAux]

theorem qsa_pos (acc : List Char) (c : Char) (cs : List Char)
    (h : qdelim.isPrefixOf (c :: cs) = true) :
    questionSplitAux acc (c :: cs) =
      acc.reverse :: questionSplitAux [] (List.drop 8 (c :: cs)) := by
  rw [questionSplitAux]
  simp [h]

theorem qsa_neg (acc : List Char) (c : Char) (cs : List Char)
    (h : qdelim.isPrefixOf (c :: cs) = false) :
    questionSplitAux acc (c :: cs) = questionSplitAux (c :: acc) cs := by
  rw [questionSplitAux]
  simp [h]

theorem qsa_match_pos (acc l : List Char) (h : qdelim.isPrefixOf l = true) :
    questionSplitAux acc l = acc.reverse :: questionSplitAux [] (List.drop 8 l) := by
  cases l with
  | nil => simp [qdelim, List.isPrefixOf] at h
  | cons c cs => exact qsa_pos acc c cs h

/-- A scan over delimiter-free text emits one fragment. -/
theorem qsa_no_occurrence : ∀ (l acc : List Char), ¬ (qdelim <:+: l) →
    questionSplitAux acc l = [acc.reverse ++ l] := by
  intro l
  induction l with
  | nil =>
    intro acc _
    rw [qsa_nil]
    simp
  | cons c cs ih =>
    intro acc h
    have hp : qdelim.isPrefixOf (c :: cs) = false := by
      cases hb : qdelim.isPrefixOf (c :: cs)
      · rfl
      · exact absurd (isPrefixOf_iff.mp hb).isInfix h
    rw [qsa_neg _ _ _ hp, ih _ (fun hin => h (list_infix_step c hin))]
    simp

/-- The delimiter has no border: no proper nonempty suffix of `Question` is
also one of its prefixes. -/
theorem qdelim_no_border : ∀ k, k < 8 → 0 < k → ¬ (qdelim.drop k <+: qdelim) := by
  decide

/-- A scan over text whose first delimiter occurrence starts right after a
delimiter-free block emits that block and restarts after the delimiter. -/
theorem qsa_first_occurrence : ∀ (a : List Char), ¬ (qdelim <:+: a) →
    ∀ (acc b : List Char),
      questionSplitAux acc (a ++ (qdelim ++ b)) =
        (acc.reverse ++ a) :: questionSplitAux [] b := by
  intro a
  induction a with
  | nil =>
    intro _ acc b
    rw [List.nil_append,
      qsa_match_pos acc _ (isPrefixOf_iff.mpr (List.prefix_append qdelim b))]
    have hdrop : List.drop 8 (qdelim ++ b) = b := by
      have h8 := List.drop_left qdelim b
      have hlen : qdelim.length = 8 := rfl
      rwa [hlen] at h8
    rw [hdrop]
    simp
  | cons c a' ih =>
    intro h acc b
    have hp : qdelim.isPrefixOf ((c :: a') ++ (qdelim ++ b)) = false := by
      cases hb : qdelim.isPrefixOf ((c :: a') ++ (qdelim ++ b))
      · rfl
      · exfalso
        have hpre : qdelim <+: (c :: a') ++ (qdelim ++ b) := isPrefixOf_iff.mp hb
        by_cases hlen : (8 : Nat) ≤ (c :: a').length
        · exact h (prefix_cut_left hpre (by simpa [qdelim] using hlen)).isInfix
        · push_neg at hlen
          have hx : (c :: a') <+: qdelim :=
            append_prefix_cut hpre (by simpa [qdelim] using le_of_lt hlen)
          obtain ⟨d, hd⟩ := hx
          have hdp : d <+: qdelim ++ b := by
            have hcancel : (c :: a') ++ d <+: (c :: a') ++ (qdelim ++ b) := by
              rwa [hd]
            obtain ⟨t, ht⟩ := hcancel
            exact ⟨t, by
              have hassoc := ht
              rw [List.append_assoc] at hassoc
              exact List.append_cancel_left hassoc⟩
          have hdq : d <+: qdelim := by
            refine prefix_cut_left hdp ?_
            have : (c :: a').length + d.length = qdelim.length := by
              rw [← hd, List.length_append]
            omega
          have hdval : qdelim.drop (c :: a').length = d := by
            rw [← hd, List.drop_left]
          exact qdelim_no_border (c :: a').length (by simpa [qdelim] using hlen)
            (by simp) (hdval ▸ hdq)
    rw [List.cons_append, qsa_neg _ _ _ (by rwa [List.cons_append] at hp),
      ih (fun hin => h (list_infix_step c hin)) (c :: acc) b]
    simp

/-- A scan of text that starts with the delimiter emits the accumulator and
restarts after it. -/
theorem qsa_start_occurrence (acc b : List Char) :
    questionSplitAux acc (qdelim ++ b) = acc.reverse :: questionSplitAux [] b := by
  have h := qsa_first_occurrence [] (by decide) acc b
  simpa using h

/- ===== Claim C6 ===== -/

/-- C6: a completion with zero occurrences of the delimiter token yields an
empty block sequence, and the formatted output is empty. -/
theorem C6_segment_no_delimiter (s : String) (h : containsQuestionToken s = false) :
    question_blocks s = [] ∧ format_response s = "" := by
  have hno : ¬ (qdelim <:+: s.data) := by
    simpa [containsQuestionToken, decide_eq_false_iff_not] using h
  have hsplit : questionSplit s.data = [s.data] := by
    rw [questionSplit, qsa_no_occurrence _ _ hno]
    simp
  have hblocks : question_blocks s = [] := by
    rw [question_blocks, hsplit]
    rfl
  exact ⟨hblocks, by rw [format_response, hblocks]; rfl⟩

/-- Witness for C6 at a delimiter-free completion. -/
theorem C6_witness :
    question_blocks "2 + 2 = 4" = [] ∧ format_response "2 + 2 = 4" = "" :=
  C6_segment_no_delimiter "2 + 2 = 4" (by decide)

/- ===== Claim C7 ===== -/

/-- C7: segmentation is replayable — two runs over the same completion text
yield identical block sequences — and the blocks are the wrapped fragments
in the order the fragments occur in the source text. -/
theorem C7_segment_replay (s t : String) (h : s = t) :
    question_blocks s = question_blocks t ∧
    question_blocks s =
      ((questionSplit s.data).drop 1).map (fun q => String.mk (wrapBlock q)) := by
  subst h
  exact ⟨rfl, rfl⟩

/-- Witness for C7 at a concrete completion. -/
theorem C7_witness :
    question_blocks "Question 1: x" = question_blocks "Question 1: x" ∧
    question_blocks "Question 1: x" =
      ((questionSplit ("Question 1: x" : String).data).drop 1).map
        (fun q => String.mk (wrapBlock q)) :=
  C7_segment_replay "Question 1: x" "Question 1: x" rfl

/- ===== Claim C8 ===== -/

/-- C8: a completion made of exactly two delimited questions with nothing
before the first delimiter segments into exactly those two blocks, in
order, each wrapping the reconstituted token `Question` (which leads the
block body by construction of `wrapBlock`). -/
theorem C8_segment_two_questions (a b : String)
    (ha : containsQuestionToken a = false) (hb : containsQuestionToken b = false) :
    question_blocks ("Question" ++ a ++ "Question" ++ b) =
      [String.mk (wrapBlock a.data), String.mk (wrapBlock b.data)] ∧
    (question_blocks ("Question" ++ a ++ "Question" ++ b)).length = 2 ∧
    qdelim <+: qdelim ++ brReplace a.data ∧
    qdelim <+: qdelim ++ brReplace b.data := by
  have hna : ¬ (qdelim <:+: a.data) := by
    simpa [containsQuestionToken, decide_eq_false_iff_not] using ha
  have hnb : ¬ (qdelim <:+: b.data) := by
    simpa [containsQuestionToken, decide_eq_false_iff_not] using hb
  have hdata : ("Question" ++ a ++ "Question" ++ b).data =
      qdelim ++ (a.data ++ (qdelim ++ b.data)) := by
    simp [String.data_append]
    rfl
  have hsplit : questionSplit ("Question" ++ a ++ "Question" ++ b).data =
      [[], a.data, b.data] := by
    rw [questionSplit, hdata, qsa_start_occurrence,
      qsa_first_occurrence a.data hna [] b.data,
      qsa_no_occurrence _ _ hnb]
    simp
  have hblocks : question_blocks ("Question" ++ a ++ "Question" ++ b) =
      [String.mk (wrapBlock a.data), String.mk (wrapBlock b.data)] := by
    rw [question_blocks, hsplit]
    rfl
  exact ⟨hblocks, by rw [hblocks]; rfl,
    List.prefix_append qdelim (brReplace a.data),
    List.prefix_append qdelim (brReplace b.data)⟩

/-- Witness for C8 at a concrete two-question completion. -/
theorem C8_witness :
    question_blocks ("Question" ++ " 1: What is 2+2?\n\n" ++ "Question" ++ " 2: What is 3+3?") =
      [String.mk (wrapBlock (" 1: What is 2+2?\n\n" : String).data),
       String.mk (wrapBlock (" 2: What is 3+3?" : String).data)] ∧
    (question_blocks ("Question" ++ " 1: What is 2+2?\n\n" ++ "Question" ++ " 2: What is 3+3?")).length = 2 ∧
    qdelim <+: qdelim ++ brReplace (" 1: What is 2+2?\n\n" : String).data ∧
    qdelim <+: qdelim ++ brReplace (" 2: What is 3+3?" : String).data :=
  C8_segment_two_questions " 1: What is 2+2?\n\n" " 2: What is 3+3?" (by decide) (by decide)

/- ===== Normalization lemmas ===== -/

theorem head_dropWhile (p : Char → Bool) : ∀ (l : List Char) (c : Char),
    (l.dropWhile p).head? = some c → p c = false := by
  intro l
  induction l with
  | nil =>
    intro c h
    simp [List.dropWhile] at h
  | cons a as ih =>
    intro c h
    rw [List.dropWhile_cons] at h
    by_cases hp : p a = true
    · rw [if_pos hp] at h
      exact ih c h
    · rw [if_neg hp] at h
      have hac : a = c := by simpa using h
      subst hac
      simpa using hp

theorem pyStrip_front (l : List Char) : pyStrip l <+: l.dropWhile isPySpace := by
  have hsuf : (l.dropWhile isPySpace).reverse.dropWhile isPySpace <:+
      (l.dropWhile isPySpace).reverse := List.dropWhile_suffix isPySpace
  have hp := List.reverse_prefix.mpr hsuf
  rwa [List.reverse_reverse] at hp

theorem pyStrip_head (l : List Char) :
    ∀ c, (pyStrip l).head? = some c → isPySpace c = false := by
  intro c hc
  by_cases hne : pyStrip l = []
  · rw [hne] at hc
    simp at hc
  · have hhead := prefix_head_eq (pyStrip_front l) hne
    rw [hhead] at hc
    exact head_dropWhile isPySpace l c hc

theorem pyStrip_last (l : List Char) :
    ∀ c, (pyStrip l).getLast? = some c → isPySpace c = false := by
  intro c hc
  rw [pyStrip, List.getLast?_reverse] at hc
  exact head_dropWhile isPySpace _ c hc

theorem stripped_of_pyStrip (l : List Char) :
    strippedBool (String.mk (pyStrip l)) = true := by
  have hd : (String.mk (pyStrip l)).data = pyStrip l := rfl
  rw [strippedBool, hd]
  cases h1 : (pyStrip l).head? with
  | none =>
    cases h2 : (pyStrip l).getLast? with
    | none => rfl
    | some c => simp [pyStrip_last l c h2]
  | some c =>
    cases h2 : (pyStrip l).getLast? with
    | none => simp [pyStrip_head l c h1]
    | some d => simp [pyStrip_head l c h1, pyStrip_last l d h2]

theorem collapse_head : ∀ l : List Char, (collapseDoubleNewline l).head? = l.head? := by
  intro l
  induction l using collapseDoubleNewline.induct with
  | case1 => rfl
  | case2 c => rfl
  | case3 c d rest h ih =>
    obtain ⟨hc, hd⟩ := h
    subst hc hd
    simp [collapseDoubleNewline]
  | case4 c d rest h ih => simp [collapseDoubleNewline, h]

/-- A single replacement pass removes all doubled newlines provided the
input has no run of three or more newlines. -/
theorem collapse_no_double : ∀ l : List Char, ¬ (['\n', '\n', '\n'] <:+: l) →
    ¬ (['\n', '\n'] <:+: collapseDoubleNewline l) := by
  intro l
  induction l using collapseDoubleNewline.induct with
  | case1 =>
    intro _ h
    simp [collapseDoubleNewline] at h
  | case2 c =>
    intro _ h
    have hlen := h.length_le
    simp [collapseDoubleNewline] at hlen
  | case3 c d rest hcd ih =>
    obtain ⟨hc, hd⟩ := hcd
    subst hc hd
    intro hno h
    simp only [collapseDoubleNewline, and_self, if_true] at h
    rcases List.infix_cons_iff.mp h with hpre | hrest
    · have h2 := (List.cons_prefix_cons.mp hpre).2
      have hhead := singleton_prefix_head h2
      rw [collapse_head rest] at hhead
      cases rest with
      | nil => simp at hhead
      | cons e r =>
        have he : e = '\n' := by simpa using hhead
        subst he
        exact hno ⟨[], r, rfl⟩
    · exact ih (fun ht => hno (list_infix_step _ (list_infix_step _ ht))) hrest
  | case4 c d rest hcd ih =>
    intro hno h
    simp only [collapseDoubleNewline, if_neg hcd] at h
    rcases List.infix_cons_iff.mp h with hpre | hrest
    · obtain ⟨hc, h2⟩ := List.cons_prefix_cons.mp hpre
      have hhead := singleton_prefix_head h2
      rw [collapse_head (d :: rest)] at hhead
      have hd : d = '\n' := by simpa using hhead
      exact hcd ⟨hc.symm, hd⟩
    · exact ih (fun ht => hno (list_infix_step _ ht)) hrest

/- ===== Claim C5 ===== -/

/-- C5 counterexample: on an input with a run of four newlines the
normalizer leaves two consecutive newlines in its output. -/
theorem C5_counterexample :
    clean_extracted_text "a\n\n\n\nb" = "a\n\nb" ∧
    hasDoubleNewline (clean_extracted_text "a\n\n\n\nb") = true := by
  constructor
  · rfl
  · rfl

/-- C5 amended: the normalizer always strips leading and trailing
whitespace, and it removes all doubled newlines only when the input has no
run of three or more consecutive newlines; longer runs are only halved by
the single replacement pass and may leave consecutive newlines behind. -/
theorem C5_clean_text_amended (s : String) :
    strippedBool (clean_extracted_text s) = true ∧
    (hasTripleNewline s = false → hasDoubleNewline (clean_extracted_text s) = false) := by
  by_cases hs : s = ""
  · subst hs
    exact ⟨rfl, fun _ => rfl⟩
  · have hclean : clean_extracted_text s =
        String.mk (pyStrip (collapseDoubleNewline s.data)) := by
      rw [clean_extracted_text, if_neg hs]
    constructor
    · rw [hclean]
      exact stripped_of_pyStrip _
    · intro htriple
      rw [hclean, hasDoubleNewline]
      simp only [decide_eq_false_iff_not]
      intro hpair
      have hstrip : pyStrip (collapseDoubleNewline s.data) <:+:
          collapseDoubleNewline s.data :=
        (pyStrip_front _).isInfix.trans (List.dropWhile_suffix isPySpace).isInfix
      exact collapse_no_double s.data
        (by simpa [hasTripleNewline, decide_eq_false_iff_not] using htriple)
        (hpair.trans hstrip)

/-- Witness for C5 at a concrete input without newline runs. -/
theorem C5_witness :
    strippedBool (clean_extracted_text "a\n\nb") = true ∧
    hasDoubleNewline (clean_extracted_text "a\n\nb") = false :=
  ⟨(C5_clean_text_amended "a\n\nb").1, (C5_clean_text_amended "a\n\nb").2 (by decide)⟩

/- ===== Claim C9 ===== -/

/-- C9 counterexample: with the credential absent (and the PDF backend
present) the script still renders the full input form and registers the
button handler; no fatal configuration notice and no halt occur, so the
program does accept input. -/
theorem C9_counterexample :
    ((startup_events true none).any isFatalOrHalt) = false ∧
    ((startup_events true none).any isInputWidget) = true ∧
    StartupEvent.buttonHandlerRegistered ∈ startup_events true none := by
  refine ⟨rfl, rfl, ?_⟩
  simp [startup_events]

/-- C9 amended: a missing credential is not startup-fatal — startup is
identical with and without the credential and renders the form — and the
failure surfaces only when a generation is triggered, as a caught gateway
exception reported through an error notice while the app keeps running. -/
theorem C9_startup_amended (gw : Gateway) (env : PdfEnv)
    (grade standards lessons section_content err : String)
    (hg : grade ≠ "") (hst : standards ≠ "") (hle : lessons ≠ "")
    (hsc : section_content ≠ "")
    (hgw : gw none system_instruction
        (user_content grade section_content lessons standards lessons
          (load_reference_text env grade)) = .error err) :
    startup_events true none = startup_events true (some "key") ∧
    ((startup_events true none).any isFatalOrHalt) = false ∧
    handle_generate gw env none grade standards lessons section_content =
      [.errorNotice ("An error occurred: " ++ err)] := by
  refine ⟨rfl, rfl, ?_⟩
  rw [handle_generate, if_pos ⟨hg, hst, hle, hsc⟩]
  rw [get_response, hgw]

/-- Witness for C9 with a gateway that rejects the missing credential. -/
theorem C9_witness :
    startup_events true none = startup_events true (some "key") ∧
    ((startup_events true none).any isFatalOrHalt) = false ∧
    handle_generate (fun _ _ _ => .error "credential missing")
        ⟨true, fun _ => false, fun _ => none⟩ none "Grade 4" "std" "les" "sec" =
      [.errorNotice ("An error occurred: " ++ "credential missing")] :=
  C9_startup_amended (fun _ _ _ => .error "credential missing")
    ⟨true, fun _ => false, fun _ => none⟩ "Grade 4" "std" "les" "sec"
    "credential missing" (by decide) (by decide) (by decide) (by decide) rfl
